import Mathlib

/-!
Verification development for the pricing-aggregation core of a multi-venue
DEX aggregator.  The definitions below are shallow embeddings of the
TypeScript sources:

* `BabydogeSwap.*`   — the constant-product AMM quote kernel and the
  identifier / quote entry points of `src/dex/babydoge/babydoge.ts`;
* `SDai.*`           — the 1:1 DAI/sDAI adapter of `src/dex/sdai/sdai.ts`;
* `PricingHelper.*`  — the fan-out coordinator `getPoolPrices` /
  `getPoolIdentifiers` of the `PricingHelper` class.

JavaScript `BigInt` arithmetic is embedded as `Int`; `BigInt` division
truncates toward zero, which is `Int.tdiv`.  Adapter I/O (RPC fetches,
timeouts) is abstracted as explicit outcome values: a per-adapter call
either produces a result or an error message (a timeout surfaces as the
message "Timeout"), exactly the two continuations of the promise in the
source.  Floating-point `rollupL1ToL2GasRatio` is modelled as a rational.
-/

set_option maxRecDepth 100000

/-- One of the two sides of a request (`SwapSide` in `constants.ts`). -/
inductive SwapSide where
  | SELL
  | BUY
deriving Repr, DecidableEq

/-- A token: address plus decimals (the `Token` shape of `types.ts`). -/
structure TokenL where
  address : String
  decimals : Nat
deriving Repr, DecidableEq

/-- `gasCost` of a quote is either a scalar or a sequence
(`number | number[]` in the source). -/
inductive GasCost where
  | scalar (g : Int)
  | seq (gs : List Int)
deriving Repr, DecidableEq

/-- A single pool quote (`PoolPrices<D>` of `types.ts`), with the
`gasCostL2` field the rollup overlay may add.  The venue-opaque `data`
payload plays no role in any claim and is omitted. -/
structure PoolPricesL where
  prices : List Int
  unit : Int
  gasCost : GasCost
  exchange : String
  poolIdentifier : Option String := none
  poolAddresses : List String := []
  gasCostL2 : Option GasCost := none
deriving Repr, DecidableEq

/-- The improved envelope `{dexKey, poolId, prices: PoolPrices | null}`. -/
structure ImprovedPoolPrice where
  dexKey : String
  poolId : String
  prices : Option PoolPricesL
deriving Repr, DecidableEq

/-! ## BabydogeSwap constant-product kernel

Shallow embedding of `BabydogeSwap.getSellPrice` / `getBuyPrice`
(`src/dex/babydoge/babydoge.ts`, lines 264‑297).  `feeFactor` is the
class field fixed to 10000; `RESERVE_LIMIT = 2^112 - 1` is the module
constant.  JS `BigInt` division is truncation toward zero (`Int.tdiv`).
-/

def RESERVE_LIMIT : Int := 2 ^ 112 - 1

def feeFactor : Int := 10000

/-- `BabydogeSwap.getSellPrice(priceParams, srcAmount)`: the pool params
carry `reservesIn`, `reservesOut` and `fee`; overflow guard first, then
the constant-product output formula with trunc-toward-zero division. -/
def BabydogeSwap.getSellPrice (reservesIn reservesOut fee srcAmount : Int) : Int :=
  if reservesIn + srcAmount > RESERVE_LIMIT then 0
  else
    let amountInWithFee := srcAmount * (feeFactor - fee)
    let numerator := amountInWithFee * reservesOut
    let denominator := reservesIn * feeFactor + amountInWithFee
    if denominator = 0 then 0 else Int.tdiv numerator denominator

/-- `BabydogeSwap.getBuyPrice(priceParams, destAmount)`: required input
for a fixed output, rounded up by `1 +` after trunc division. -/
def BabydogeSwap.getBuyPrice (reservesIn reservesOut fee destAmount : Int) : Int :=
  let numerator := reservesIn * destAmount * feeFactor
  let denominator := (feeFactor - fee) * (reservesOut - destAmount)
  if denominator ≤ 0 then 0
  else if numerator = 0 then 0
  else 1 + Int.tdiv numerator denominator

/-- The sell quote exactly as the spec sentence words it: `floor` of
`(x·(F−fee)·r_out) / (r_in·F + x·(F−fee))`, 0 on reserve overflow, 0 on
denominator 0.  (Spec-side definition, to be compared with
`BabydogeSwap.getSellPrice`.) -/
def specSellPriceFloor (reservesIn reservesOut fee srcAmount : Int) : Int :=
  if reservesIn + srcAmount > RESERVE_LIMIT then 0
  else
    let denominator := reservesIn * feeFactor + srcAmount * (feeFactor - fee)
    if denominator = 0 then 0
    else Int.fdiv (srcAmount * (feeFactor - fee) * reservesOut) denominator

/-- The buy quote exactly as the spec sentence words it:
`1 + floor((r_in·y·F) / ((F−fee)·(r_out − y)))`, 0 when the denominator
is ≤ 0 or the numerator is 0.  (Spec-side definition, to be compared
with `BabydogeSwap.getBuyPrice`.) -/
def specBuyPriceFloor (reservesIn reservesOut fee destAmount : Int) : Int :=
  let numerator := reservesIn * destAmount * feeFactor
  let denominator := (feeFactor - fee) * (reservesOut - destAmount)
  if denominator ≤ 0 then 0
  else if numerator = 0 then 0
  else 1 + Int.fdiv numerator denominator

/-! ## Helper equation lemmas for the kernel -/

lemma getSellPrice_eq_tdiv (rIn rOut fee x : Int)
    (h1 : ¬ rIn + x > RESERVE_LIMIT)
    (h2 : rIn * feeFactor + x * (feeFactor - fee) ≠ 0) :
    BabydogeSwap.getSellPrice rIn rOut fee x =
      Int.tdiv (x * (feeFactor - fee) * rOut) (rIn * feeFactor + x * (feeFactor - fee)) := by
  unfold BabydogeSwap.getSellPrice
  simp [h1, h2]

lemma getBuyPrice_eq_tdiv (rIn rOut fee y : Int)
    (h1 : 0 < (feeFactor - fee) * (rOut - y))
    (h2 : rIn * y * feeFactor ≠ 0) :
    BabydogeSwap.getBuyPrice rIn rOut fee y =
      1 + Int.tdiv (rIn * y * feeFactor) ((feeFactor - fee) * (rOut - y)) := by
  unfold BabydogeSwap.getBuyPrice
  simp [not_le.mpr h1, h2]

/-- C3: the claim words the sell quote with mathematical `floor`; JS
`BigInt` division truncates toward zero.  At `x = 1`, `r_in = 1`,
`r_out = 3`, `fee = 10001` (all within the claim's quantifiers: x ≥ 0,
r_in ≥ 0, r_out ≥ 0, fee unconstrained) the two disagree: no overflow,
denominator `9999 ≠ 0`, the code returns `0` while
`floor(-3 / 9999) = -1`. -/
theorem C3_counterexample :
    (0:Int) ≤ 1 ∧ (0:Int) ≤ 1 ∧ (0:Int) ≤ 3 ∧
    ¬ ((1:Int) + 1 > RESERVE_LIMIT) ∧
    (1:Int) * feeFactor + 1 * (feeFactor - 10001) ≠ 0 ∧
    specSellPriceFloor 1 3 10001 1 = -1 ∧
    BabydogeSwap.getSellPrice 1 3 10001 1 = 0 := by
  refine ⟨by decide, by decide, by decide, by decide, by decide, by decide, by decide⟩

/-- C3 (amended): for x ≥ 0, r_in ≥ 0, r_out ≥ 0 and **fee ≤ 10000**
(the extra bound the counterexample forces; all the operands are then
nonnegative and truncation agrees with floor), `BabydogeSwap.getSellPrice`
equals the spec's formula: 0 when `r_in + x > 2^112 - 1`, otherwise
`floor((x·(F−fee)·r_out) / (r_in·F + x·(F−fee)))`, and 0 when that
denominator is 0. -/
theorem C3_sell_quote_amended (rIn rOut fee x : Int)
    (hx : 0 ≤ x) (hrIn : 0 ≤ rIn) (hrOut : 0 ≤ rOut) (hfee : fee ≤ 10000) :
    BabydogeSwap.getSellPrice rIn rOut fee x = specSellPriceFloor rIn rOut fee x := by
  have hg : 0 ≤ feeFactor - fee := by simp only [feeFactor]; linarith
  by_cases h1 : rIn + x > RESERVE_LIMIT
  · unfold BabydogeSwap.getSellPrice specSellPriceFloor
    simp [h1]
  · by_cases h2 : rIn * feeFactor + x * (feeFactor - fee) = 0
    · unfold BabydogeSwap.getSellPrice specSellPriceFloor
      simp [h1, h2]
    · have hnum : 0 ≤ x * (feeFactor - fee) * rOut :=
        mul_nonneg (mul_nonneg hx hg) hrOut
      have hden : 0 ≤ rIn * feeFactor + x * (feeFactor - fee) := by
        have : (0:Int) ≤ rIn * feeFactor := by
          apply mul_nonneg hrIn
          simp [feeFactor]
        have := mul_nonneg hx hg
        linarith
      rw [getSellPrice_eq_tdiv rIn rOut fee x h1 h2]
      unfold specSellPriceFloor
      simp only [h1, if_false, h2]
      rw [Int.tdiv_eq_ediv hnum hden, Int.fdiv_eq_ediv _ hden]

/-- Witness for C3 (amended) at the spec's S2 numbers. -/
theorem C3_sell_quote_amended_witness :
    (0:Int) ≤ 1000 ∧ (0:Int) ≤ 1000000 ∧ (0:Int) ≤ 2000000 ∧ (30:Int) ≤ 10000 ∧
    BabydogeSwap.getSellPrice 1000000 2000000 30 1000 =
      specSellPriceFloor 1000000 2000000 30 1000 :=
  ⟨by decide, by decide, by decide, by decide,
    C3_sell_quote_amended 1000000 2000000 30 1000
      (by decide) (by decide) (by decide) (by decide)⟩

/-- C4: the claim words the buy quote with mathematical `floor`; JS
`BigInt` division truncates toward zero.  At `y = 1`, `r_in = -1`,
`r_out = 4`, `fee = 0` (within the claim's "all big-integer inputs") the
denominator is `30000 > 0` and the numerator `-10000 ≠ 0`; the code
returns `1 + trunc(-10000/30000) = 1` while the claim's
`1 + floor(-10000/30000) = 0`. -/
theorem C4_counterexample :
    (0:Int) < (feeFactor - 0) * (4 - 1) ∧
    (-1:Int) * 1 * feeFactor ≠ 0 ∧
    specBuyPriceFloor (-1) 4 0 1 = 0 ∧
    BabydogeSwap.getBuyPrice (-1) 4 0 1 = 1 := by
  refine ⟨by decide, by decide, by decide, by decide⟩

/-- C4 (amended): for **y ≥ 0 and r_in ≥ 0** (the extra bounds the
counterexample forces; the numerator is then nonnegative and truncation
agrees with floor), `BabydogeSwap.getBuyPrice` returns 0 when the
denominator `(F−fee)·(r_out − y) ≤ 0` or the numerator `r_in·y·F` is 0,
and otherwise `1 + floor((r_in·y·F) / ((F−fee)·(r_out − y)))`. -/
theorem C4_buy_quote_amended (rIn rOut fee y : Int)
    (hy : 0 ≤ y) (hrIn : 0 ≤ rIn) :
    BabydogeSwap.getBuyPrice rIn rOut fee y = specBuyPriceFloor rIn rOut fee y := by
  by_cases h1 : (feeFactor - fee) * (rOut - y) ≤ 0
  · unfold BabydogeSwap.getBuyPrice specBuyPriceFloor
    simp [h1]
  · by_cases h2 : rIn * y * feeFactor = 0
    · unfold BabydogeSwap.getBuyPrice specBuyPriceFloor
      simp [h1, h2]
    · have hdpos : 0 < (feeFactor - fee) * (rOut - y) := lt_of_not_le h1
      have hnum : 0 ≤ rIn * y * feeFactor := by
        apply mul_nonneg (mul_nonneg hrIn hy)
        simp [feeFactor]
      rw [getBuyPrice_eq_tdiv rIn rOut fee y hdpos h2]
      unfold specBuyPriceFloor
      rw [if_neg h1, if_neg h2,
        Int.tdiv_eq_ediv hnum (le_of_lt hdpos), Int.fdiv_eq_ediv _ (le_of_lt hdpos)]

/-- Witness for C4 (amended). -/
theorem C4_buy_quote_amended_witness :
    (0:Int) ≤ 1000 ∧ (0:Int) ≤ 1000000 ∧
    BabydogeSwap.getBuyPrice 1000000 2000000 30 1000 =
      specBuyPriceFloor 1000000 2000000 30 1000 :=
  ⟨by decide, by decide,
    C4_buy_quote_amended 1000000 2000000 30 1000 (by decide) (by decide)⟩

/-- C5: the claimed round trip
`getAmountIn(getAmountOut(x, r0, r1, f), r0, r1, f) ≥ x` fails on the
code inside the claim's own domain, already at fee 0 with small
reserves: with `r0 = 1`, `r1 = 2`, `f = 0`, `x = 3` (so `x > 0`,
`f ∈ [0, F)`, `x + r0 ≤ 2^112 − 1`, both reserves positive) the sell
quote is 1 and buying 1 back costs only 2 < 3. -/
theorem C5_counterexample :
    (0:Int) < 3 ∧ (0:Int) ≤ 0 ∧ (0:Int) < feeFactor ∧ (3:Int) + 1 ≤ RESERVE_LIMIT ∧
    BabydogeSwap.getSellPrice 1 2 0 3 = 1 ∧
    BabydogeSwap.getBuyPrice 1 2 0 (BabydogeSwap.getSellPrice 1 2 0 3) = 2 ∧
    ¬ (3:Int) ≤ BabydogeSwap.getBuyPrice 1 2 0 (BabydogeSwap.getSellPrice 1 2 0 3) := by
  refine ⟨by decide, by decide, by decide, by decide, by decide, by decide, by decide⟩

/-- C5 (amended): the no-free-lunch round trip the kernel does satisfy
is the dual composition: for positive reserves `r0 ≥ 1`, a feasible
output `0 < y < r1`, `f ∈ [0, F)`, and the bought amount not tripping
the reserve-overflow guard, selling `getAmountIn(y, r0, r1, f)` returns
at least `y`: `getSellPrice(getBuyPrice(y)) ≥ y`.  (The claim's stated
direction `getAmountIn(getAmountOut(x)) ≥ x` is false on the code—see
the counterexample—because `getAmountOut` may floor the intermediate
output far enough that even the `1 +` round-up cannot recover `x`.) -/
theorem C5_round_trip_amended (r0 r1 f y : Int) (hr0 : 1 ≤ r0) (hy : 0 < y) (hyr : y < r1)
    (hf0 : 0 ≤ f) (hfF : f < feeFactor)
    (hov : r0 + BabydogeSwap.getBuyPrice r0 r1 f y ≤ RESERVE_LIMIT) :
    y ≤ BabydogeSwap.getSellPrice r0 r1 f (BabydogeSwap.getBuyPrice r0 r1 f y) := by
  have hgpos : 0 < feeFactor - f := by linarith
  have hFpos : (0:Int) < feeFactor := by norm_num [feeFactor]
  have hdenpos : 0 < (feeFactor - f) * (r1 - y) := mul_pos hgpos (by linarith)
  have hnumpos : 0 < r0 * y * feeFactor := by positivity
  have hx : BabydogeSwap.getBuyPrice r0 r1 f y =
      1 + Int.tdiv (r0 * y * feeFactor) ((feeFactor - f) * (r1 - y)) :=
    getBuyPrice_eq_tdiv r0 r1 f y hdenpos (ne_of_gt hnumpos)
  set num := r0 * y * feeFactor with hnum_def
  set den := (feeFactor - f) * (r1 - y) with hden_def
  set x := BabydogeSwap.getBuyPrice r0 r1 f y with hx_def
  have htd : Int.tdiv num den = num / den :=
    Int.tdiv_eq_ediv (le_of_lt hnumpos) (le_of_lt hdenpos)
  have hq0 : 0 ≤ num / den := Int.ediv_nonneg (le_of_lt hnumpos) (le_of_lt hdenpos)
  have hx1 : 1 ≤ x := by rw [hx, htd]; linarith
  have hkey : num + 1 ≤ x * den := by
    have hmod := Int.emod_lt_of_pos num hdenpos
    have hdm := Int.ediv_add_emod num den
    have hmod0 : 0 ≤ num % den := Int.emod_nonneg num (ne_of_gt hdenpos)
    have : x * den = den + den * (num / den) := by rw [hx, htd]; ring
    nlinarith [this, hdm, hmod]
  have hden2pos : 0 < r0 * feeFactor + x * (feeFactor - f) := by nlinarith
  have hs : BabydogeSwap.getSellPrice r0 r1 f x =
      Int.tdiv (x * (feeFactor - f) * r1) (r0 * feeFactor + x * (feeFactor - f)) :=
    getSellPrice_eq_tdiv r0 r1 f x (not_lt.mpr hov) (ne_of_gt hden2pos)
  have hnum2 : 0 ≤ x * (feeFactor - f) * r1 := by
    have : (0:Int) < r1 := by linarith
    positivity
  rw [hs, Int.tdiv_eq_ediv hnum2 (le_of_lt hden2pos)]
  rw [Int.le_ediv_iff_mul_le hden2pos]
  nlinarith [hkey]

/-- Witness for C5 (amended). -/
theorem C5_round_trip_amended_witness :
    (1:Int) ≤ 1000000 ∧ (0:Int) < 1000 ∧ (1000:Int) < 2000000 ∧
    (0:Int) ≤ 30 ∧ (30:Int) < feeFactor ∧
    (1000000:Int) + BabydogeSwap.getBuyPrice 1000000 2000000 30 1000 ≤ RESERVE_LIMIT ∧
    (1000:Int) ≤ BabydogeSwap.getSellPrice 1000000 2000000 30
      (BabydogeSwap.getBuyPrice 1000000 2000000 30 1000) :=
  ⟨by decide, by decide, by decide, by decide, by decide, by decide,
    C5_round_trip_amended 1000000 2000000 30 1000
      (by decide) (by decide) (by decide) (by decide) (by decide) (by decide)⟩

/-! ## Pricing coordinator (`PricingHelper`)

The coordinator fans a request out over `dexKeys`.  Each per-adapter
call is real I/O behind a deadline; its outcome is abstracted as a
value: either the adapter's `getPricesVolume` result (`null` or a list
of quotes), or an error message (a thrown error, a rejected promise, or
the deadline firing with message "Timeout").  The registry lookup
`getDexByKey` may itself throw, which the same `catch` turns into an
error envelope, so the environment maps a key to
`Except errorMessage DexInfoP`.
-/

/-- The transfer-fee basis points bundle (`TransferFeeParams`). -/
structure TransferFeeParams where
  srcFee : Int
  destFee : Int
  srcDexFee : Int
  destDexFee : Int
deriving Repr, DecidableEq

/-- Modelled from the spec: `isSrcTokenTransferFeeToBeExchanged` lives in
`utils.ts`, which is not part of the provided sources.  Spec §3: "A
source-side transfer fee is 'in play' when srcFee > 0 or srcDexFee > 0." -/
def isSrcTokenTransferFeeToBeExchanged (tf : TransferFeeParams) : Bool :=
  tf.srcFee > 0 || tf.srcDexFee > 0

/-- Modelled from the spec: `toImprovedPoolPrices` is imported from
`types.ts`, which is not part of the provided sources.  Spec §4.7: if
`pps` is null or empty, `[{dexKey, poolId: "", prices: null}]` (no
silent drop); else one envelope per pool with
`poolId = pp.poolIdentifier ?? ""`. -/
def toImprovedPoolPrices (dexKey : String) (pps : Option (List PoolPricesL)) :
    List ImprovedPoolPrice :=
  match pps with
  | none => [⟨dexKey, "", none⟩]
  | some [] => [⟨dexKey, "", none⟩]
  | some l => l.map (fun pp => ⟨dexKey, pp.poolIdentifier.getD "", some pp⟩)

/-- `Math.ceil(ratio * g)` of the rollup overlay, with the JS float
ratio modelled as a rational. -/
def ceilMul (ratio : ℚ) (g : Int) : Int :=
  Int.ceil (ratio * (g : ℚ))

/-- The rollup gas adjustment `getPoolPrices` applies to one envelope
(source lines 247‑282): null prices pass; otherwise `gasCostL2 :=
gasCost`, `gasCostL1 := getCalldataGasCost(prices)`, scalar+scalar and
sequence+sequence add element-wise with `ceil(ratio·l1)`, a
sequence-length mismatch **between the two gas arrays** or a mixed
scalar/sequence shape throws (which rejects the adapter's whole
batch). -/
def adjustEnvelope (ratio : ℚ) (getCalldataGasCost : PoolPricesL → GasCost)
    (dexKey : String) (e : ImprovedPoolPrice) : Except String ImprovedPoolPrice :=
  match e.prices with
  | none => Except.ok e
  | some pp0 =>
    let pp := { pp0 with gasCostL2 := some pp0.gasCost }
    let gasCostL1 := getCalldataGasCost pp
    match pp.gasCost, gasCostL1 with
    | GasCost.scalar g, GasCost.scalar l1 =>
        Except.ok { e with prices := some { pp with gasCost := GasCost.scalar (g + ceilMul ratio l1) } }
    | GasCost.seq gs, GasCost.seq ls =>
        if gs.length ≠ ls.length then
          Except.error ("getCalldataGasCost returned wrong array length in dex " ++ dexKey)
        else
          Except.ok { e with prices := some { pp with
            gasCost := GasCost.seq (gs.zipWith (fun g l1 => g + ceilMul ratio l1) ls) } }
    | _, _ =>
        Except.error ("getCalldataGasCost returned wrong type in dex " ++ dexKey)

/-- The rollup adjustment mapped over an adapter's batch; the first
throw aborts the whole batch. -/
def adjustAll (ratio : ℚ) (getCalldataGasCost : PoolPricesL → GasCost)
    (dexKey : String) : List ImprovedPoolPrice → Except String (List ImprovedPoolPrice)
  | [] => Except.ok []
  | e :: rest =>
    match adjustEnvelope ratio getCalldataGasCost dexKey e with
    | Except.error msg => Except.error msg
    | Except.ok e2 =>
      match adjustAll ratio getCalldataGasCost dexKey rest with
      | Except.error msg => Except.error msg
      | Except.ok rest2 => Except.ok (e2 :: rest2)

/-- Outcome of one adapter's `getPricesVolume` work: the resolved value
(`null` or a list of quotes), or the error message of a throw /
rejection / timeout. -/
inductive FetchResult where
  | ok (pps : Option (List PoolPricesL))
  | err (msg : String)

/-- The slice of a dex instance `getPoolPrices` consults: the
fee-on-transfer capability flag, the abstracted `getPricesVolume`
outcome, and `getCalldataGasCost`. -/
structure DexInfoP where
  isFeeOnTransferSupported : Bool
  fetch : FetchResult
  getCalldataGasCost : PoolPricesL → GasCost

/-- One adapter's contribution to `getPoolPrices` before the final
validation pass (source lines 200‑304): skip on a present-but-empty
`limitPools`; the fee-on-transfer diagnostic envelope; the wrapped
quotes, rollup-adjusted when a (truthy, hence nonzero) ratio was given;
a single error envelope carrying the error message otherwise. -/
def perKeyPoolPrices (transferFees : TransferFeeParams)
    (ratio : Option ℚ) (key : String) (limitPools : Option (List String))
    (dex : Except String DexInfoP) : List ImprovedPoolPrice :=
  if limitPools = some [] then []
  else
    match dex with
    | Except.error e => [⟨key, e, none⟩]
    | Except.ok d =>
      if isSrcTokenTransferFeeToBeExchanged transferFees && !d.isFeeOnTransferSupported then
        [⟨key, "isSrcTokenTransferFeeToBeExchanged_pool", none⟩]
      else
        match d.fetch with
        | FetchResult.err msg => [⟨key, msg, none⟩]
        | FetchResult.ok pps =>
          let improvedPrices := toImprovedPoolPrices key pps
          match ratio with
          | none => improvedPrices
          | some r =>
            if r = 0 then improvedPrices
            else
              match adjustAll r d.getCalldataGasCost key improvedPrices with
              | Except.ok adjusted => adjusted
              | Except.error msg => [⟨key, msg, none⟩]

/-- The final validation pass of `getPoolPrices` (source lines 312‑349):
null-prices envelopes are kept; otherwise the chunk count must match,
a gasCost array must match `amounts.length` and be 0 wherever the
amount is 0, and not all prices may be 0. -/
def validationKeep (amounts : List Int) (p : ImprovedPoolPrice) : Bool :=
  match p.prices with
  | none => true
  | some pr =>
    (pr.prices.length == amounts.length) &&
    (match pr.gasCost with
     | GasCost.scalar _ => true
     | GasCost.seq gc =>
        (gc.length == amounts.length) &&
        ((amounts.zip gc).all fun ag => !(ag.1 == 0 && !(ag.2 == 0)))) &&
    !(pr.prices.all (· == 0))

/-- `PricingHelper.getPoolPrices` (source lines 183‑351): fan out over
`dexKeys`, flatten, validate.  The token pair, side and block number are
forwarded verbatim to the adapters and already folded into each
adapter's abstracted outcome, so they do not appear as parameters. -/
def limitPoolsOf (limitPoolsMap : Option (String → Option (List String)))
    (key : String) : Option (List String) :=
  match limitPoolsMap with
  | none => none
  | some m => m key

def PricingHelper.getPoolPrices (amounts : List Int) (transferFees : TransferFeeParams)
    (ratio : Option ℚ) (dexKeys : List String)
    (limitPoolsMap : Option (String → Option (List String)))
    (env : String → Except String DexInfoP) : List ImprovedPoolPrice :=
  let dexPoolPrices := dexKeys.map fun key =>
    perKeyPoolPrices transferFees ratio key (limitPoolsOf limitPoolsMap key) (env key)
  dexPoolPrices.flatten.filter (validationKeep amounts)

/-- The slice of a dex instance `getPoolIdentifiers` consults: the
constant-price capability flag and the abstracted `getPoolIdentifiers`
outcome (a list, or the error message of a throw / rejection /
timeout). -/
structure IdDexInfo where
  hasConstantPriceLargeAmounts : Bool
  ids : Except String (List String)

/-- One adapter's entry in the `getPoolIdentifiers` result (source lines
118‑147): an unknown key makes `getDexByKey` throw, caught as `[]`;
`filterConstantPricePool` plus the capability flag resolves `null`; an
error or timeout is caught as `[]`; otherwise the adapter's list. -/
def perKeyPoolIdentifiers (filterConstantPricePool : Bool)
    (dex : Option IdDexInfo) : Option (List String) :=
  match dex with
  | none => some []
  | some d =>
    if filterConstantPricePool && d.hasConstantPriceLargeAmounts then none
    else
      match d.ids with
      | Except.error _ => some []
      | Except.ok l => some l

/-- `PricingHelper.getPoolIdentifiers` (source lines 110‑161): the
per-key results re-associated with their keys (the source reduces the
parallel array into an object keyed by dexKey). -/
def PricingHelper.getPoolIdentifiers (filterConstantPricePool : Bool)
    (dexKeys : List String) (env : String → Option IdDexInfo) :
    List (String × Option (List String)) :=
  dexKeys.map fun key => (key, perKeyPoolIdentifiers filterConstantPricePool (env key))

/-! ## C1: the validation pass -/

lemma zip_zeroGas_iff (a g : List Int) (h : a.length = g.length) :
    (((a.zip g).all fun ag => !(ag.1 == 0 && !(ag.2 == 0))) = true ↔
      ∀ i, i < a.length → a.getD i 0 = 0 → g.getD i 0 = 0) := by
  induction a generalizing g with
  | nil => simp
  | cons x as ih =>
    cases g with
    | nil => simp at h
    | cons y gs =>
      have hl : as.length = gs.length := by simpa using h
      simp only [List.zip_cons_cons, List.all_cons, Bool.and_eq_true, ih gs hl]
      constructor
      · rintro ⟨h1, h2⟩ i hi ha
        have h1' : x = 0 → y = 0 := by
          have h2' : ¬x = 0 ∨ y = 0 := by simpa using h1
          tauto
        cases i with
        | zero =>
          simp only [List.getD_cons_zero] at ha ⊢
          exact h1' ha
        | succ n =>
          simp only [List.getD_cons_succ] at ha ⊢
          exact h2 n (by simpa using hi) ha
      · intro hall
        have h0 : x = 0 → y = 0 := by
          intro hx
          have := hall 0 (by simp) (by simpa using hx)
          simpa using this
        refine ⟨by have h2' : ¬x = 0 ∨ y = 0 := by tauto
                   simpa using h2', ?_⟩
        intro i hi ha
        exact hall (i + 1) (by simpa using hi) (by simpa using ha)

/-- C1: the final validation pass of `PricingHelper.getPoolPrices`
(`List.filter (validationKeep amounts)`) keeps an envelope with
non-null `prices` exactly when the chunk count matches, a gasCost array
matches `amounts.length` with `gasCost[i] = 0` wherever `amounts[i] =
0`, and not every price entry is 0; envelopes with null `prices` always
pass (the filter keeps them verbatim, preserving order). -/
theorem C1_validation_pass (amounts : List Int) :
    (∀ e : ImprovedPoolPrice, e.prices = none → validationKeep amounts e = true) ∧
    (∀ (e : ImprovedPoolPrice) (pr : PoolPricesL), e.prices = some pr →
      (validationKeep amounts e = true ↔
        (pr.prices.length = amounts.length ∧
         (∀ gc, pr.gasCost = GasCost.seq gc →
            gc.length = amounts.length ∧
            ∀ i, i < amounts.length → amounts.getD i 0 = 0 → gc.getD i 0 = 0) ∧
         ¬ (∀ p ∈ pr.prices, p = 0)))) := by
  constructor
  · intro e he
    simp [validationKeep, he]
  · intro e pr he
    have hAllIff : ((!(pr.prices.all fun p => p == 0)) = true) ↔ ¬ ∀ p ∈ pr.prices, p = 0 := by
      simp [List.all_eq_true]
    cases hgc : pr.gasCost with
    | scalar g =>
      simp [validationKeep, he, hgc, List.all_eq_true, Bool.and_eq_true, beq_iff_eq]
    | seq gc =>
      simp only [validationKeep, he, hgc]
      rw [Bool.and_eq_true, Bool.and_eq_true, Bool.and_eq_true, beq_iff_eq, beq_iff_eq,
        hAllIff]
      constructor
      · rintro ⟨⟨hA, hM1, hM2⟩, hB⟩
        refine ⟨hA, ?_, hB⟩
        intro gc' hgc'
        cases hgc'
        exact ⟨hM1, (zip_zeroGas_iff amounts gc hM1.symm).mp hM2⟩
      · rintro ⟨hA, hGC, hB⟩
        obtain ⟨hM1, hIdx⟩ := hGC gc rfl
        exact ⟨⟨hA, hM1, (zip_zeroGas_iff amounts gc hM1.symm).mpr hIdx⟩, hB⟩

/-- A concrete quote used by the C1 witness. -/
def c1WitnessQuote : PoolPricesL :=
  { prices := [0, 7], unit := 1, gasCost := GasCost.seq [0, 5], exchange := "k" }

/-- A concrete envelope used by the C1 witness. -/
def c1WitnessEnvelope : ImprovedPoolPrice :=
  ⟨"k", "p", some c1WitnessQuote⟩

/-- Witness for C1: the characterization applied at a concrete envelope
shows it is kept. -/
theorem C1_validation_pass_witness :
    validationKeep [0, 1] c1WitnessEnvelope = true :=
  ((C1_validation_pass [0, 1]).2 c1WitnessEnvelope c1WitnessQuote rfl).mpr
    (by refine ⟨by decide, ?_, by decide⟩
        intro gc hgc
        have hq : GasCost.seq [0, 5] = GasCost.seq gc := hgc
        cases hq
        exact ⟨by decide, by decide⟩)

/-! ## C2: per-venue failure isolation in `getPoolPrices` -/

/-- C2: `PricingHelper.getPoolPrices` is a total function of the
adapters' outcomes — the aggregate always resolves — and when one
adapter's work throws, rejects, or times out (outcome
`FetchResult.err msg`; a timeout carries `msg = "Timeout"`), that
adapter's entire contribution to the result, wherever it sits in
`dexKeys`, is exactly the one envelope `{dexKey, poolId: msg, prices:
null}`; the surrounding keys' contributions are untouched. -/
theorem C2_error_envelope (amounts : List Int) (tf : TransferFeeParams) (ratio : Option ℚ)
    (keys1 keys2 : List String) (key : String)
    (lpm : Option (String → Option (List String)))
    (env : String → Except String DexInfoP)
    (d : DexInfoP) (msg : String)
    (hd : env key = Except.ok d)
    (hfetch : d.fetch = FetchResult.err msg)
    (hskip : limitPoolsOf lpm key ≠ some [])
    (hfee : (isSrcTokenTransferFeeToBeExchanged tf && !d.isFeeOnTransferSupported) = false) :
    PricingHelper.getPoolPrices amounts tf ratio (keys1 ++ key :: keys2) lpm env =
      PricingHelper.getPoolPrices amounts tf ratio keys1 lpm env ++
        ⟨key, msg, none⟩ ::
          PricingHelper.getPoolPrices amounts tf ratio keys2 lpm env := by
  have hpk : perKeyPoolPrices tf ratio key (limitPoolsOf lpm key) (env key) =
      [⟨key, msg, none⟩] := by
    unfold perKeyPoolPrices
    rw [if_neg hskip, hd]
    simp [hfee, hfetch]
  unfold PricingHelper.getPoolPrices
  simp only [List.map_append, List.map_cons, List.flatten_append, List.flatten_cons,
    List.filter_append, hpk]
  simp [validationKeep]

/-- Concrete environment for the C2 witness: the single adapter timed
out. -/
def c2Env : String → Except String DexInfoP :=
  fun _ => Except.ok
    { isFeeOnTransferSupported := true
      fetch := FetchResult.err "Timeout"
      getCalldataGasCost := fun _ => GasCost.scalar 0 }

/-- Zero transfer fees. -/
def tfZero : TransferFeeParams := ⟨0, 0, 0, 0⟩

/-- Witness for C2 at a timed-out single venue. -/
theorem C2_error_envelope_witness :
    PricingHelper.getPoolPrices [0] tfZero none ([] ++ "k" :: []) none c2Env =
      PricingHelper.getPoolPrices [0] tfZero none [] none c2Env ++
        ⟨"k", "Timeout", none⟩ ::
          PricingHelper.getPoolPrices [0] tfZero none [] none c2Env :=
  C2_error_envelope [0] tfZero none [] [] "k" none c2Env
    { isFeeOnTransferSupported := true
      fetch := FetchResult.err "Timeout"
      getCalldataGasCost := fun _ => GasCost.scalar 0 }
    "Timeout" rfl rfl (by simp [limitPoolsOf]) (by decide)

/-! ## C8: the identifier fan-out -/

lemma perKeyIds_none_iff (f : Bool) (dex : Option IdDexInfo) :
    perKeyPoolIdentifiers f dex = none ↔
      (f = true ∧ ∃ d, dex = some d ∧ d.hasConstantPriceLargeAmounts = true) := by
  cases dex with
  | none => simp [perKeyPoolIdentifiers]
  | some d =>
    rcases Bool.eq_false_or_eq_true f with hf | hf <;>
      rcases Bool.eq_false_or_eq_true d.hasConstantPriceLargeAmounts with hh | hh <;>
        cases hids : d.ids <;>
          simp [perKeyPoolIdentifiers, hf, hh, hids]

lemma perKeyIds_err (f : Bool) (d : IdDexInfo) (msg : String)
    (hids : d.ids = Except.error msg)
    (hnc : (f && d.hasConstantPriceLargeAmounts) = false) :
    perKeyPoolIdentifiers f (some d) = some [] := by
  simp [perKeyPoolIdentifiers, hnc, hids]

/-- C8: the mapping returned by `PricingHelper.getPoolIdentifiers`
contains an entry for every requested key; the entry is `null` exactly
when `filterConstantPricePool` is set and the adapter exists with
`hasConstantPriceLargeAmounts`; when the adapter's call errors or times
out (and the null branch was not taken) the entry is the empty list; an
unknown key (the registry lookup throws, caught by the same handler)
also yields the empty list.  The fan-out is a total function of the
outcomes — no single venue can fail the aggregate. -/
theorem C8_pool_identifiers (filterConstantPricePool : Bool)
    (dexKeys : List String) (env : String → Option IdDexInfo) (key : String)
    (hmem : key ∈ dexKeys) :
    ((key, perKeyPoolIdentifiers filterConstantPricePool (env key)) ∈
        PricingHelper.getPoolIdentifiers filterConstantPricePool dexKeys env) ∧
    (perKeyPoolIdentifiers filterConstantPricePool (env key) = none ↔
      (filterConstantPricePool = true ∧
        ∃ d, env key = some d ∧ d.hasConstantPriceLargeAmounts = true)) ∧
    (∀ d msg, env key = some d →
      d.ids = Except.error msg →
      (filterConstantPricePool && d.hasConstantPriceLargeAmounts) = false →
      perKeyPoolIdentifiers filterConstantPricePool (env key) = some []) ∧
    (env key = none →
      perKeyPoolIdentifiers filterConstantPricePool (env key) = some []) := by
  refine ⟨?_, perKeyIds_none_iff _ _, ?_, ?_⟩
  · unfold PricingHelper.getPoolIdentifiers
    exact List.mem_map.mpr ⟨key, hmem, rfl⟩
  · intro d msg henv hids hnc
    rw [henv]
    exact perKeyIds_err _ d msg hids hnc
  · intro henv
    rw [henv]
    simp [perKeyPoolIdentifiers]

/-- Concrete environment for the C8 witness: "a" opted out of
constant-price filtering, "b" timed out, "c" is unknown. -/
def c8Env : String → Option IdDexInfo :=
  fun k =>
    if k = "a" then some { hasConstantPriceLargeAmounts := true, ids := Except.ok ["a_p"] }
    else if k = "b" then
      some { hasConstantPriceLargeAmounts := false, ids := Except.error "Timeout" }
    else none

/-- Witness for C8 at the timed-out adapter "b". -/
theorem C8_pool_identifiers_witness :
    (("b", perKeyPoolIdentifiers true (c8Env "b")) ∈
        PricingHelper.getPoolIdentifiers true ["a", "b", "c"] c8Env) ∧
    (perKeyPoolIdentifiers true (c8Env "b") = none ↔
      (true = true ∧ ∃ d, c8Env "b" = some d ∧ d.hasConstantPriceLargeAmounts = true)) ∧
    (∀ d msg, c8Env "b" = some d →
      d.ids = Except.error msg →
      (true && d.hasConstantPriceLargeAmounts) = false →
      perKeyPoolIdentifiers true (c8Env "b") = some []) ∧
    (c8Env "b" = none →
      perKeyPoolIdentifiers true (c8Env "b") = some []) :=
  C8_pool_identifiers true ["a", "b", "c"] c8Env "b" (by decide)

/-! ## String helpers

JS `.toLowerCase()` and string comparison, modelled over the `List Char`
contents of a `String` (Lean's own `String.toLower` and `<` walk utf8
byte positions, which the kernel cannot evaluate; on the ASCII hex
addresses involved both models agree with JS). -/

/-- `.toLowerCase()` over the character list. -/
def lowerString (s : String) : String := ⟨s.data.map Char.toLower⟩

/-- Lexicographic less-than on character lists (JS `<` on ASCII). -/
def lexLt : List Char → List Char → Bool
  | [], [] => false
  | [], _ :: _ => true
  | _ :: _, [] => false
  | a :: as, b :: bs => if a < b then true else if b < a then false else lexLt as bs

/-- JS `a > b` on strings. -/
def stringGt (a b : String) : Bool := lexLt b.data a.data

/-! ## BabydogeSwap entry points

`getPoolIdentifiers` / `getPricesVolume` of `babydoge.ts` (lines
474‑578).  `wrapETH` is the dex-helper normalization, kept abstract as a
function on tokens.  The on-chain pair lookup
(`batchCatchUpPairs` + `getPairOrderedParams`) is I/O; its outcome is
the `pairParam` oracle argument — `none` both when no pool exists (the
source returns null) and when the awaited work throws (the `catch`
returns null).  The venue-opaque `data` payload is omitted. -/

/-- `BabydogeSwapPoolOrderedParams` (babydoge.ts lines 43‑51), reserves
as big integers. -/
structure BabydogeSwapPoolOrderedParams where
  tokenIn : String
  tokenOut : String
  reservesIn : Int
  reservesOut : Int
  fee : Int
  direction : Bool
  exchange : String
deriving Repr, DecidableEq

/-- babydoge per-class flag (line 182). -/
def BabydogeSwap.hasConstantPriceLargeAmounts : Bool := false

/-- The `[a, b].sort((a, b) => (a > b ? 1 : -1)).join('_')` token-pair
payload of the pool identifier. -/
def sortedTokenAddress (a b : String) : String :=
  if stringGt a b then b ++ "_" ++ a else a ++ "_" ++ b

/-- `BabydogeSwap.getPoolIdentifiers`: wrap both tokens, empty for an
identical pair, else the single `<dexKey>_<sortedPair>` identifier. -/
def BabydogeSwap.getPoolIdentifiers (wrapETH : TokenL → TokenL) (dexKey : String)
    (tokenFrom tokenTo : TokenL) : List String :=
  let f := wrapETH tokenFrom
  let t := wrapETH tokenTo
  if lowerString f.address == lowerString t.address then []
  else
    let tokenAddress := sortedTokenAddress (lowerString f.address) (lowerString t.address)
    [dexKey ++ "_" ++ tokenAddress]

/-- The `limitPools && limitPools.every(p => p !== poolIdentifier)`
guard of `BabydogeSwap.getPricesVolume`. -/
def limitExcludes (limitPools : Option (List String)) (poolIdentifier : String) : Bool :=
  match limitPools with
  | some lps => lps.all fun p => p != poolIdentifier
  | none => false

/-- `BabydogeSwap.getPricesVolume`: null on an identical wrapped pair,
null when `limitPools` excludes the pool identifier, null when no pair
params could be obtained (missing pool or a thrown error, both via the
`pairParam` oracle); otherwise a single quote whose prices and unit are
computed by the constant-product kernel and whose gas cost is the scalar
`poolGasCost`. -/
def BabydogeSwap.getPricesVolume (wrapETH : TokenL → TokenL) (dexKey : String)
    (poolGasCost : Int) (pairParam : Option BabydogeSwapPoolOrderedParams)
    (tokenFrom tokenTo : TokenL) (amounts : List Int) (side : SwapSide)
    (limitPools : Option (List String)) : Option (List PoolPricesL) :=
  let f := wrapETH tokenFrom
  let t := wrapETH tokenTo
  if lowerString f.address == lowerString t.address then none
  else
    let tokenAddress := sortedTokenAddress (lowerString f.address) (lowerString t.address)
    let poolIdentifier := dexKey ++ "_" ++ tokenAddress
    if limitExcludes limitPools poolIdentifier then none
    else
      match pairParam with
      | none => none
      | some pp =>
        let unitAmount : Int :=
          10 ^ (match side with
                | SwapSide.BUY => t.decimals
                | SwapSide.SELL => f.decimals)
        let quote := fun amount =>
          match side with
          | SwapSide.BUY => BabydogeSwap.getBuyPrice pp.reservesIn pp.reservesOut pp.fee amount
          | SwapSide.SELL => BabydogeSwap.getSellPrice pp.reservesIn pp.reservesOut pp.fee amount
        some [{ prices := amounts.map quote
                unit := quote unitAmount
                exchange := dexKey
                poolIdentifier := some poolIdentifier
                gasCost := GasCost.scalar poolGasCost
                poolAddresses := [pp.exchange] }]

/-! ## SDai adapter (`sdai.ts`) -/

/-- The configured state of an `SDai` instance: constructor fields of
`sdai.ts` lines 33‑45.  `unitPrice` defaults to `BI_POWS[18] = 10^18`;
`sdaiGasCost` stands for the `SDAI_GAS_COST` constant imported from the
adapter's `constants.ts`. -/
structure SDaiCfg where
  dexKey : String
  sdaiAddress : String
  daiAddress : String
  unitPrice : Int := 10 ^ 18
  sdaiGasCost : Int
deriving Repr, DecidableEq

/-- `SDai.isSDai`: case-insensitive address comparison. -/
def SDai.isSDai (cfg : SDaiCfg) (tokenAddress : String) : Bool :=
  lowerString cfg.sdaiAddress == lowerString tokenAddress

/-- `SDai.isDai`: case-insensitive address comparison. -/
def SDai.isDai (cfg : SDaiCfg) (tokenAddress : String) : Bool :=
  lowerString cfg.daiAddress == lowerString tokenAddress

/-- `SDai.isAppropriatePair`: DAI paired with sDAI, in either order. -/
def SDai.isAppropriatePair (cfg : SDaiCfg) (srcToken destToken : TokenL) : Bool :=
  (SDai.isDai cfg srcToken.address && SDai.isSDai cfg destToken.address) ||
  (SDai.isDai cfg destToken.address && SDai.isSDai cfg srcToken.address)

/-- `SDai.getPoolIdentifiers` (sdai.ts lines 66‑77). -/
def SDai.getPoolIdentifiers (cfg : SDaiCfg) (srcToken destToken : TokenL) : List String :=
  if SDai.isAppropriatePair cfg srcToken destToken then
    [cfg.dexKey ++ "_" ++ srcToken.address ++ "_" ++ destToken.address]
  else []

/-- `SDai.getPricesVolume` (sdai.ts lines 79‑101): null off-pair,
otherwise one quote whose prices are the request's `amounts` array
itself, with the configured unit and scalar gas cost and no
`poolIdentifier` field.  The `side` and `limitPools` arguments are
ignored by the source. -/
def SDai.getPricesVolume (cfg : SDaiCfg) (srcToken destToken : TokenL)
    (amounts : List Int) (side : SwapSide) : Option (List PoolPricesL) :=
  if !SDai.isAppropriatePair cfg srcToken destToken then none
  else
    some [{ prices := amounts
            unit := cfg.unitPrice
            gasCost := GasCost.scalar cfg.sdaiGasCost
            exchange := cfg.dexKey
            poolIdentifier := none
            poolAddresses := [cfg.sdaiAddress] }]

/-! ## C6: the rollup gas overlay -/

/-- C6 (amended): with a truthy (nonzero) `rollupL1ToL2GasRatio`:
null-prices envelopes pass the overlay untouched; every non-null quote
first gets its original gas cost preserved as `gasCostL2`; scalar
gasCost with scalar `getCalldataGasCost` adds `ceil(ratio·l1)`; when
both are sequences the two arrays' lengths must match **each other**
(`amounts.length` is not consulted here — it is enforced only later by
the validation pass) and the cost becomes element-wise
`gasCost[i] + ceil(ratio·gasCostL1[i])`; mismatched sequence lengths or
a mixed scalar/sequence shape throw, and the throw converts that
adapter's entire batch into the single error envelope. -/
theorem C6_rollup_overlay (r : ℚ) (gcc : PoolPricesL → GasCost) (key : String) :
    (∀ e : ImprovedPoolPrice, e.prices = none → adjustEnvelope r gcc key e = Except.ok e) ∧
    (∀ (e : ImprovedPoolPrice) (pp : PoolPricesL), e.prices = some pp →
      (∀ g l1, pp.gasCost = GasCost.scalar g →
        gcc { pp with gasCostL2 := some pp.gasCost } = GasCost.scalar l1 →
        adjustEnvelope r gcc key e = Except.ok
          { e with prices := some { pp with
              gasCostL2 := some pp.gasCost,
              gasCost := GasCost.scalar (g + ceilMul r l1) } }) ∧
      (∀ gs ls, pp.gasCost = GasCost.seq gs →
        gcc { pp with gasCostL2 := some pp.gasCost } = GasCost.seq ls →
        gs.length = ls.length →
        adjustEnvelope r gcc key e = Except.ok
          { e with prices := some { pp with
              gasCostL2 := some pp.gasCost,
              gasCost := GasCost.seq (gs.zipWith (fun g l1 => g + ceilMul r l1) ls) } }) ∧
      (∀ gs ls, pp.gasCost = GasCost.seq gs →
        gcc { pp with gasCostL2 := some pp.gasCost } = GasCost.seq ls →
        gs.length ≠ ls.length →
        adjustEnvelope r gcc key e =
          Except.error ("getCalldataGasCost returned wrong array length in dex " ++ key)) ∧
      (∀ g ls, pp.gasCost = GasCost.scalar g →
        gcc { pp with gasCostL2 := some pp.gasCost } = GasCost.seq ls →
        adjustEnvelope r gcc key e =
          Except.error ("getCalldataGasCost returned wrong type in dex " ++ key)) ∧
      (∀ gs l1, pp.gasCost = GasCost.seq gs →
        gcc { pp with gasCostL2 := some pp.gasCost } = GasCost.scalar l1 →
        adjustEnvelope r gcc key e =
          Except.error ("getCalldataGasCost returned wrong type in dex " ++ key))) ∧
    (∀ (tf : TransferFeeParams) (lp : Option (List String)) (d : DexInfoP)
        (pps : Option (List PoolPricesL)) (msg : String),
      lp ≠ some [] →
      (isSrcTokenTransferFeeToBeExchanged tf && !d.isFeeOnTransferSupported) = false →
      d.fetch = FetchResult.ok pps →
      r ≠ 0 →
      d.getCalldataGasCost = gcc →
      adjustAll r gcc key (toImprovedPoolPrices key pps) = Except.error msg →
      perKeyPoolPrices tf (some r) key lp (Except.ok d) = [⟨key, msg, none⟩]) := by
  refine ⟨?_, ?_, ?_⟩
  · intro e he
    simp [adjustEnvelope, he]
  · intro e pp he
    refine ⟨?_, ?_, ?_, ?_, ?_⟩
    · intro g l1 hgc hgcc
      rw [hgc] at hgcc
      simp [adjustEnvelope, he, hgc, hgcc]
    · intro gs ls hgc hgcc hlen
      rw [hgc] at hgcc
      simp [adjustEnvelope, he, hgc, hgcc, hlen]
    · intro gs ls hgc hgcc hlen
      rw [hgc] at hgcc
      simp [adjustEnvelope, he, hgc, hgcc, hlen]
    · intro g ls hgc hgcc
      rw [hgc] at hgcc
      simp [adjustEnvelope, he, hgc, hgcc]
    · intro gs l1 hgc hgcc
      rw [hgc] at hgcc
      simp [adjustEnvelope, he, hgc, hgcc]
  · intro tf lp d pps msg hlp hfee hfetch hr0 hgccd hadj
    unfold perKeyPoolPrices
    rw [if_neg hlp]
    simp [hfee, hfetch, hr0, hgccd, hadj]

/-- Quote for the C6 counterexample. -/
def c6Quote : PoolPricesL :=
  { prices := [5], unit := 1, gasCost := GasCost.seq [1, 2], exchange := "k" }

/-- Envelope for the C6 counterexample. -/
def c6Envelope : ImprovedPoolPrice := ⟨"k", "pid", some c6Quote⟩

/-- `getCalldataGasCost` for the C6 counterexample. -/
def c6Gcc : PoolPricesL → GasCost := fun _ => GasCost.seq [3, 4]

/-- Expected adjusted quote for the C6 counterexample. -/
def c6AdjustedQuote : PoolPricesL :=
  { prices := [5], unit := 1, gasCost := GasCost.seq [4, 6], exchange := "k",
    gasCostL2 := some (GasCost.seq [1, 2]) }

/-- Expected overlay output for the C6 counterexample. -/
def c6Adjusted : ImprovedPoolPrice := ⟨"k", "pid", some c6AdjustedQuote⟩

/-- C6: the claim demands the two gas sequences' lengths match
`amounts.length`, but the overlay only compares them against **each
other**: with `amounts = [0]` (length 1), `gasCost = [1, 2]` and
`gasCostL1 = [3, 4]` (both of length 2 ≠ 1) the code performs the
element-wise update with ratio 1 — no rejection, no error envelope —
contradicting the claimed length requirement. -/
theorem C6_counterexample :
    adjustEnvelope 1 c6Gcc "k" c6Envelope = Except.ok c6Adjusted ∧
    (2 : Nat) ≠ List.length [(0 : Int)] := by
  constructor
  · simp only [adjustEnvelope, c6Envelope, c6Quote, c6Gcc, c6Adjusted, c6AdjustedQuote]
    norm_num [ceilMul]
  · decide

/-- Input quote for the C6 witness (the spec's S6 numbers). -/
def c6sQuote : PoolPricesL :=
  { prices := [5], unit := 1, gasCost := GasCost.scalar 100000, exchange := "k" }

/-- Expected adjusted quote for the C6 witness. -/
def c6sAdjustedQuote : PoolPricesL :=
  { prices := [5], unit := 1,
    gasCost := GasCost.scalar (100000 + ceilMul (3/10) 50000),
    exchange := "k", gasCostL2 := some (GasCost.scalar 100000) }

/-- Expected overlay output for the C6 witness. -/
def c6sAdjusted : ImprovedPoolPrice := ⟨"k", "p", some c6sAdjustedQuote⟩

/-- Witness for C6 at the spec's S6 numbers: scalar 100000, calldata
cost 50000, ratio 0.3 → `gasCostL2 = 100000`, `gasCost = 115000`. -/
theorem C6_rollup_overlay_witness :
    adjustEnvelope (3/10) (fun _ => GasCost.scalar 50000) "k" ⟨"k", "p", some c6sQuote⟩ =
      Except.ok c6sAdjusted ∧
    (100000 : Int) + ceilMul (3/10) 50000 = 115000 :=
  ⟨by simpa [c6sQuote, c6sAdjusted, c6sAdjustedQuote] using
      ((C6_rollup_overlay (3/10) (fun _ => GasCost.scalar 50000) "k").2.1
        ⟨"k", "p", some c6sQuote⟩ c6sQuote rfl).1 100000 50000 rfl rfl,
    by norm_num [ceilMul]⟩

/-! ## Kernel behaviour at amount 0 (shared by C7) -/

lemma getSellPrice_zero (r0 r1 f : Int) : BabydogeSwap.getSellPrice r0 r1 f 0 = 0 := by
  unfold BabydogeSwap.getSellPrice
  split
  · rfl
  · simp

lemma getBuyPrice_zero (r0 r1 f : Int) : BabydogeSwap.getBuyPrice r0 r1 f 0 = 0 := by
  unfold BabydogeSwap.getBuyPrice
  simp

/-! ## C10: the SDai 1:1 adapter -/

/-- The single quote `SDai.getPricesVolume` builds on a DAI/sDAI pair. -/
def SDai.quote (cfg : SDaiCfg) (amounts : List Int) : PoolPricesL :=
  { prices := amounts
    unit := cfg.unitPrice
    gasCost := GasCost.scalar cfg.sdaiGasCost
    exchange := cfg.dexKey
    poolIdentifier := none
    poolAddresses := [cfg.sdaiAddress] }

/-- C10: `SDai.getPricesVolume` returns null exactly when the pair is
not DAI paired with sDAI (case-insensitively, in either order); on the
appropriate pair — for any side and any amounts — it returns exactly
one quote whose prices sequence is the request's `amounts` itself, with
the configured unit (the class default is `10^18`), a scalar gas cost,
and no `poolIdentifier`, so the coordinator's envelope carries
`poolId = ""`. -/
theorem C10_sdai_prices (cfg : SDaiCfg) (srcToken destToken : TokenL)
    (amounts : List Int) (side : SwapSide) :
    (SDai.getPricesVolume cfg srcToken destToken amounts side = none ↔
      ¬ ((lowerString cfg.daiAddress = lowerString srcToken.address ∧
          lowerString cfg.sdaiAddress = lowerString destToken.address) ∨
         (lowerString cfg.daiAddress = lowerString destToken.address ∧
          lowerString cfg.sdaiAddress = lowerString srcToken.address))) ∧
    (SDai.isAppropriatePair cfg srcToken destToken = true →
      (SDai.getPricesVolume cfg srcToken destToken amounts side =
        some [SDai.quote cfg amounts] ∧
       toImprovedPoolPrices cfg.dexKey
          (SDai.getPricesVolume cfg srcToken destToken amounts side) =
        [⟨cfg.dexKey, "", some (SDai.quote cfg amounts)⟩] ∧
       (SDai.quote cfg amounts).prices = amounts ∧
       (SDai.quote cfg amounts).unit = cfg.unitPrice ∧
       (SDai.quote cfg amounts).gasCost = GasCost.scalar cfg.sdaiGasCost ∧
       (SDai.quote cfg amounts).poolIdentifier = none)) := by
  have happ : SDai.isAppropriatePair cfg srcToken destToken = true ↔
      ((lowerString cfg.daiAddress = lowerString srcToken.address ∧
        lowerString cfg.sdaiAddress = lowerString destToken.address) ∨
       (lowerString cfg.daiAddress = lowerString destToken.address ∧
        lowerString cfg.sdaiAddress = lowerString srcToken.address)) := by
    simp [SDai.isAppropriatePair, SDai.isDai, SDai.isSDai]
  constructor
  · rw [← happ]
    by_cases h : SDai.isAppropriatePair cfg srcToken destToken = true
    · simp [SDai.getPricesVolume, h]
    · rw [Bool.not_eq_true] at h
      simp [SDai.getPricesVolume, h]
  · intro h
    refine ⟨?_, ?_, rfl, rfl, rfl, rfl⟩
    · simp [SDai.getPricesVolume, h, SDai.quote]
    · simp [SDai.getPricesVolume, h, toImprovedPoolPrices, SDai.quote]

/-- Concrete config for the C10 witness. -/
def c10Cfg : SDaiCfg :=
  { dexKey := "SDai", sdaiAddress := "0xSD", daiAddress := "0xDA", sdaiGasCost := 1000 }

/-- Witness for C10 on the DAI→sDAI pair. -/
theorem C10_sdai_prices_witness :
    SDai.getPricesVolume c10Cfg ⟨"0xDA", 18⟩ ⟨"0xSD", 18⟩ [0, 5] SwapSide.SELL =
      some [SDai.quote c10Cfg [0, 5]] ∧
    toImprovedPoolPrices c10Cfg.dexKey
        (SDai.getPricesVolume c10Cfg ⟨"0xDA", 18⟩ ⟨"0xSD", 18⟩ [0, 5] SwapSide.SELL) =
      [⟨c10Cfg.dexKey, "", some (SDai.quote c10Cfg [0, 5])⟩] ∧
    (SDai.quote c10Cfg [0, 5]).prices = [0, 5] ∧
    (SDai.quote c10Cfg [0, 5]).unit = c10Cfg.unitPrice ∧
    (SDai.quote c10Cfg [0, 5]).gasCost = GasCost.scalar c10Cfg.sdaiGasCost ∧
    (SDai.quote c10Cfg [0, 5]).poolIdentifier = none :=
  (C10_sdai_prices c10Cfg ⟨"0xDA", 18⟩ ⟨"0xSD", 18⟩ [0, 5] SwapSide.SELL).2 (by decide)

/-! ## C7: zero amounts -/

lemma validationKeep_zeroGas (amounts : List Int) (e : ImprovedPoolPrice)
    (pr : PoolPricesL) (gc : List Int)
    (he : e.prices = some pr) (hgc : pr.gasCost = GasCost.seq gc)
    (hk : validationKeep amounts e = true) :
    ∀ i, i < amounts.length → amounts.getD i 0 = 0 → gc.getD i 0 = 0 := by
  simp only [validationKeep, he, hgc] at hk
  rw [Bool.and_eq_true, Bool.and_eq_true, Bool.and_eq_true, beq_iff_eq, beq_iff_eq] at hk
  obtain ⟨⟨hA, hM1, hM2⟩, hB⟩ := hk
  exact (zip_zeroGas_iff amounts gc hM1.symm).mp hM2

lemma getD_map_zero (f : Int → Int) (hf : f 0 = 0) (l : List Int) (i : Nat)
    (h : l.getD i 0 = 0) : (l.map f).getD i 0 = 0 := by
  induction l generalizing i with
  | nil => simp
  | cons x xs ih =>
    cases i with
    | zero =>
      simp only [List.getD_cons_zero] at h
      simp [List.getD_cons_zero, h, hf]
    | succ n =>
      simp only [List.map_cons, List.getD_cons_succ] at h ⊢
      exact ih n h

/-- C7 (amended): the coordinator's validation pass enforces only the
gas half of the zero-amount invariant — every quote it returns with a
gasCost sequence has `gasCost[i] = 0` wherever `amounts[i] = 0`; the
price half `amounts[i] = 0 → prices[i] = 0` is a property of the
adapters, not checked by the coordinator: both constant-product kernels
quote 0 at amount 0, so every quote `BabydogeSwap.getPricesVolume`
builds satisfies it, and `SDai.getPricesVolume`'s prices are the
`amounts` array itself. -/
theorem C7_zero_amount_amended :
    (∀ (amounts : List Int) (tf : TransferFeeParams) (ratio : Option ℚ)
        (keys : List String) (lpm : Option (String → Option (List String)))
        (env : String → Except String DexInfoP) (e : ImprovedPoolPrice)
        (pr : PoolPricesL) (gc : List Int),
      e ∈ PricingHelper.getPoolPrices amounts tf ratio keys lpm env →
      e.prices = some pr → pr.gasCost = GasCost.seq gc →
      ∀ i, i < amounts.length → amounts.getD i 0 = 0 → gc.getD i 0 = 0) ∧
    (∀ r0 r1 f : Int,
      BabydogeSwap.getSellPrice r0 r1 f 0 = 0 ∧ BabydogeSwap.getBuyPrice r0 r1 f 0 = 0) ∧
    (∀ (wrapETH : TokenL → TokenL) (dexKey : String) (pgc : Int)
        (pairParam : Option BabydogeSwapPoolOrderedParams) (tFrom tTo : TokenL)
        (amounts : List Int) (side : SwapSide) (lp : Option (List String))
        (l : List PoolPricesL) (q : PoolPricesL),
      BabydogeSwap.getPricesVolume wrapETH dexKey pgc pairParam tFrom tTo amounts side lp =
        some l →
      q ∈ l →
      ∀ i, i < amounts.length → amounts.getD i 0 = 0 → q.prices.getD i 0 = 0) ∧
    (∀ (cfg : SDaiCfg) (srcToken destToken : TokenL) (amounts : List Int)
        (side : SwapSide) (l : List PoolPricesL) (q : PoolPricesL),
      SDai.getPricesVolume cfg srcToken destToken amounts side = some l →
      q ∈ l → q.prices = amounts) := by
  refine ⟨?_, ?_, ?_, ?_⟩
  · intro amounts tf ratio keys lpm env e pr gc hmem he hgc
    simp only [PricingHelper.getPoolPrices] at hmem
    rw [List.mem_filter] at hmem
    exact validationKeep_zeroGas amounts e pr gc he hgc hmem.2
  · intro r0 r1 f
    exact ⟨getSellPrice_zero r0 r1 f, getBuyPrice_zero r0 r1 f⟩
  · intro wrapETH dexKey pgc pairParam tFrom tTo amounts side lp l q hsome hq i hi ha
    simp only [BabydogeSwap.getPricesVolume] at hsome
    by_cases h1 :
        (lowerString (wrapETH tFrom).address == lowerString (wrapETH tTo).address) = true
    · rw [if_pos h1] at hsome
      cases hsome
    · rw [if_neg h1] at hsome
      by_cases h2 : limitExcludes lp (dexKey ++ "_" ++
          sortedTokenAddress (lowerString (wrapETH tFrom).address)
            (lowerString (wrapETH tTo).address)) = true
      · rw [if_pos h2] at hsome
        cases hsome
      · rw [if_neg h2] at hsome
        cases pairParam with
        | none => cases hsome
        | some pp =>
          injection hsome with hsome
          subst hsome
          rw [List.mem_singleton] at hq
          subst hq
          cases side with
          | SELL => exact getD_map_zero _ (getSellPrice_zero _ _ _) amounts i ha
          | BUY => exact getD_map_zero _ (getBuyPrice_zero _ _ _) amounts i ha
  · intro cfg srcToken destToken amounts side l q hsome hq
    simp only [SDai.getPricesVolume] at hsome
    cases happ : SDai.isAppropriatePair cfg srcToken destToken with
    | false =>
      rw [happ] at hsome
      simp at hsome
    | true =>
      rw [happ] at hsome
      simp at hsome
      subst hsome
      rw [List.mem_singleton] at hq
      subst hq
      rfl

/-- An adapter quote violating the prices half of the zero-amount
invariant (nonzero price at a zero amount, scalar gas cost). -/
def c7Quote : PoolPricesL :=
  { prices := [5, 7], unit := 1, gasCost := GasCost.scalar 10, exchange := "X",
    poolIdentifier := some "pid" }

/-- Environment serving `c7Quote`. -/
def c7Env : String → Except String DexInfoP :=
  fun _ => Except.ok
    { isFeeOnTransferSupported := true
      fetch := FetchResult.ok (some [c7Quote])
      getCalldataGasCost := fun _ => GasCost.scalar 0 }

/-- C7: the coordinator does **not** enforce `amounts[i] = 0 →
prices[i] = 0` — the validation pass checks the gas coherence only.
With `amounts = [0, 1]` an adapter quote `prices = [5, 7]` (scalar
gasCost, not all zero) sails through `getPoolPrices`, whose returned
quote has `prices[0] = 5 ≠ 0` at the zero amount, contradicting the
claim over every returned quote. -/
theorem C7_counterexample :
    PricingHelper.getPoolPrices [0, 1] tfZero none ["X"] none c7Env =
      [⟨"X", "pid", some c7Quote⟩] ∧
    ([0, 1] : List Int).getD 0 0 = 0 ∧
    c7Quote.prices.getD 0 0 = 5 := by
  refine ⟨by decide, by decide, by decide⟩

/-- A well-behaved quote for the C7 witness. -/
def c7GoodQuote : PoolPricesL :=
  { prices := [0, 7], unit := 1, gasCost := GasCost.seq [0, 3], exchange := "X",
    poolIdentifier := some "pid" }

/-- Environment serving `c7GoodQuote`. -/
def c7GoodEnv : String → Except String DexInfoP :=
  fun _ => Except.ok
    { isFeeOnTransferSupported := true
      fetch := FetchResult.ok (some [c7GoodQuote])
      getCalldataGasCost := fun _ => GasCost.scalar 0 }

/-- Witness for C7 (amended): a surviving quote at a concrete request
has zero gas at the zero-amount index. -/
theorem C7_zero_amount_amended_witness :
    (⟨"X", "pid", some c7GoodQuote⟩ : ImprovedPoolPrice) ∈
      PricingHelper.getPoolPrices [0, 1] tfZero none ["X"] none c7GoodEnv ∧
    List.getD [0, 3] 0 0 = (0 : Int) :=
  ⟨by decide,
    C7_zero_amount_amended.1 [0, 1] tfZero none ["X"] none c7GoodEnv
      ⟨"X", "pid", some c7GoodQuote⟩ c7GoodQuote [0, 3]
      (by decide) rfl rfl 0 (by decide) (by decide)⟩

/-! ## C9: the trivial identity pair -/

lemma getPoolPrices_cons (amounts : List Int) (tf : TransferFeeParams) (ratio : Option ℚ)
    (k : String) (ks : List String)
    (lpm : Option (String → Option (List String)))
    (env : String → Except String DexInfoP) :
    PricingHelper.getPoolPrices amounts tf ratio (k :: ks) lpm env =
      (perKeyPoolPrices tf ratio k (limitPoolsOf lpm k) (env k)).filter
          (validationKeep amounts) ++
        PricingHelper.getPoolPrices amounts tf ratio ks lpm env := by
  simp [PricingHelper.getPoolPrices, List.filter_append]

/-- C9 (amended): when `from` and `to` normalize to the same address the
babydoge adapter returns null quotes and no identifiers; the coordinator
does **not** return `[]` — by the no-silent-drop rule each null adapter
result becomes the diagnostic envelope `{dexKey, poolId: "", prices:
null}`, so `getPoolPrices` returns one such envelope per requested key;
`getPoolIdentifiers` does map every key to `[]` (for the SDai adapter
an identical pair is never DAI-with-sDAI as long as the two configured
addresses differ). -/
theorem C9_trivial_identity_amended :
    (∀ (wrapETH : TokenL → TokenL) (dexKey : String) (pgc : Int)
        (pairParam : Option BabydogeSwapPoolOrderedParams) (tFrom tTo : TokenL)
        (amounts : List Int) (side : SwapSide) (lp : Option (List String)),
      lowerString (wrapETH tFrom).address = lowerString (wrapETH tTo).address →
      BabydogeSwap.getPricesVolume wrapETH dexKey pgc pairParam tFrom tTo amounts side lp =
          none ∧
      BabydogeSwap.getPoolIdentifiers wrapETH dexKey tFrom tTo = []) ∧
    (∀ (amounts : List Int) (tf : TransferFeeParams) (ratio : Option ℚ)
        (keys : List String) (lpm : Option (String → Option (List String)))
        (env : String → Except String DexInfoP),
      (∀ k ∈ keys, limitPoolsOf lpm k ≠ some [] ∧
        ∃ d, env k = Except.ok d ∧
          (isSrcTokenTransferFeeToBeExchanged tf && !d.isFeeOnTransferSupported) = false ∧
          d.fetch = FetchResult.ok none) →
      PricingHelper.getPoolPrices amounts tf ratio keys lpm env =
        keys.map fun k => ⟨k, "", none⟩) ∧
    (∀ (cfg : SDaiCfg) (t : TokenL),
      lowerString cfg.daiAddress ≠ lowerString cfg.sdaiAddress →
      SDai.getPoolIdentifiers cfg t t = []) := by
  refine ⟨?_, ?_, ?_⟩
  · intro wrapETH dexKey pgc pairParam tFrom tTo amounts side lp h
    constructor
    · simp [BabydogeSwap.getPricesVolume, h]
    · simp [BabydogeSwap.getPoolIdentifiers, h]
  · intro amounts tf ratio keys lpm env hall
    induction keys with
    | nil => simp [PricingHelper.getPoolPrices]
    | cons k ks ih =>
      obtain ⟨hlp, d, hd, hfee, hfetch⟩ := hall k (List.mem_cons_self k ks)
      have hpk : perKeyPoolPrices tf ratio k (limitPoolsOf lpm k) (env k) =
          [⟨k, "", none⟩] := by
        unfold perKeyPoolPrices
        rw [if_neg hlp, hd]
        cases ratio with
        | none => simp [hfee, hfetch, toImprovedPoolPrices]
        | some r =>
          by_cases hr : r = 0
          · simp [hfee, hfetch, toImprovedPoolPrices, hr]
          · simp [hfee, hfetch, toImprovedPoolPrices, hr, adjustAll, adjustEnvelope]
      rw [getPoolPrices_cons, hpk,
        ih (fun k2 hk2 => hall k2 (List.mem_cons_of_mem _ hk2))]
      simp [validationKeep]
  · intro cfg t hne
    have happ : SDai.isAppropriatePair cfg t t = false := by
      unfold SDai.isAppropriatePair
      rw [Bool.or_self]
      cases hdai : SDai.isDai cfg t.address with
      | false => simp
      | true =>
        have hsd : SDai.isSDai cfg t.address = false := by
          unfold SDai.isDai at hdai
          unfold SDai.isSDai
          rw [beq_iff_eq] at hdai
          rw [beq_eq_false_iff_ne]
          intro hcontra
          exact hne (hdai.trans hcontra.symm)
        simp [hsd]
    unfold SDai.getPoolIdentifiers
    simp [happ]

/-- A token identical on both sides of the C9 counterexample. -/
def c9Token : TokenL := ⟨"0xAAA", 18⟩

/-- Environment whose single adapter is the babydoge model quoting the
identical pair: its `getPricesVolume` resolves null. -/
def c9Env : String → Except String DexInfoP :=
  fun _ => Except.ok
    { isFeeOnTransferSupported := true
      fetch := FetchResult.ok
        (BabydogeSwap.getPricesVolume id "BabydogeSwap" 90000 none
          c9Token c9Token [0, 1] SwapSide.SELL none)
      getCalldataGasCost := fun _ => GasCost.scalar 0 }

/-- C9: with `from = to`, `getPoolPrices` does **not** return `[]`: the
adapter's null result becomes the diagnostic envelope
`{dexKey, poolId: "", prices: null}` (the claim's own no-silent-drop
source), so the result is one envelope per key.  The identifiers half
does hold (`getPoolIdentifiers` yields `[]` for the key). -/
theorem C9_counterexample :
    BabydogeSwap.getPricesVolume id "BabydogeSwap" 90000 none
        c9Token c9Token [0, 1] SwapSide.SELL none = none ∧
    PricingHelper.getPoolPrices [0, 1] tfZero none ["BabydogeSwap"] none c9Env =
      [⟨"BabydogeSwap", "", none⟩] ∧
    PricingHelper.getPoolPrices [0, 1] tfZero none ["BabydogeSwap"] none c9Env ≠
      ([] : List ImprovedPoolPrice) ∧
    BabydogeSwap.getPoolIdentifiers id "BabydogeSwap" c9Token c9Token = [] := by
  refine ⟨by decide, by decide, by decide, by decide⟩

/-- Environment for the C9 witness: one adapter resolving null. -/
def c9WEnv : String → Except String DexInfoP :=
  fun _ => Except.ok
    { isFeeOnTransferSupported := true
      fetch := FetchResult.ok none
      getCalldataGasCost := fun _ => GasCost.scalar 0 }

/-- Witness for C9 (amended). -/
theorem C9_trivial_identity_amended_witness :
    PricingHelper.getPoolPrices [0, 1] tfZero none ["BabydogeSwap"] none c9WEnv =
      [⟨"BabydogeSwap", "", none⟩] := by
  have h := C9_trivial_identity_amended.2.1 [0, 1] tfZero none ["BabydogeSwap"] none c9WEnv
    (by intro k hk
        exact ⟨by simp [limitPoolsOf], ⟨_, rfl, by decide, rfl⟩⟩)
  simpa using h
